import Mathlib

/-!
Verification of the video ingestion pipeline of
learn-file-storage-s3-golang-starter against its specification.

Strings manipulated by the Go code are modelled as lists of characters
(the contents of a Go string); pure helpers of the source are translated
one-to-one, and the video-upload handler is translated as a state-passing
function over an explicit effect record (filesystem, object storage and
metadata-store writes), with the outcomes of the external collaborators
(database, JWT validation, ffmpeg, ffprobe, S3) supplied as an environment
of oracle values, one per call site of the source.  Line numbers refer to
src/handler_upload_thumbnail.go unless stated otherwise.
-/

/-- Contents of a Go string, as a list of characters. -/
def str (s : String) : List Char := s.data

/-- Go strings.Split with a one-character separator: splits around every
occurrence of the separator; the empty string splits to one empty field. -/
def splitSep (sep : Char) : List Char → List (List Char)
  | [] => [[]]
  | c :: cs =>
    if c = sep then [] :: splitSep sep cs
    else
      match splitSep sep cs with
      | [] => [[c]]
      | t :: ts => (c :: t) :: ts

/-- Line 240: the persisted locator string,
strings.Join of bucket and key with a comma. -/
def encodeLocator (bucket key : List Char) : List Char :=
  bucket ++ str (",") ++ key

/-- Lines 340-344: dbVideoToSignedVideo splits
the stored URL on commas and demands exactly two fields, else errors. -/
def decodeLocator (u : List Char) : Except (List Char) (List Char × List Char) :=
  match splitSep ',' u with
  | [bucket, key] => Except.ok (bucket, key)
  | _ => Except.error (str ("invalid dbVideoUrl, cannot get correct bucket and key"))

/-- src/assets.go lines 15-21: strings.Split the media type on the slash; any
field count other than two yields the fallback extension bin. -/
def getFileExtension (mediaType : List Char) : List Char :=
  match splitSep '/' mediaType with
  | [_, ext] => ext
  | _ => str ("bin")

/-- Line 290: the classification tolerance. -/
def tolerance : ℚ := 1/10

/-- Lines 285-287: the ratio local variable of getVideoAspectRatio.  The
source computes it in float64; it is modelled exactly over the rationals. -/
def ratioOf (width height : Int) : ℚ := (width : ℚ) / (height : ℚ)

/-- Lines 283-298: normalization of a probed
width and height to an aspect label. -/
def classifyRatio (width height : Int) : List Char :=
  if 16/9 - tolerance ≤ ratioOf width height ∧ ratioOf width height ≤ 16/9 + tolerance then
    str ("16:9")
  else if 9/16 - tolerance ≤ ratioOf width height ∧ ratioOf width height ≤ 9/16 + tolerance then
    str ("9:16")
  else str ("other")

/-- Lines 301-310: the switch mapping an aspect
label to the bucket prefix used in the storage key. -/
def getAspectRatioPrefix (aspectRatio : List Char) : List Char :=
  if aspectRatio = str ("16:9") then str ("landscape")
  else if aspectRatio = str ("9:16") then str ("portrait")
  else str ("other")

/-- The base64url alphabet of RFC 4648 section 5, as used by Go
encoding/base64 RawURLEncoding. -/
def base64Alphabet : List Char :=
  str ("ABCDEFGHIJKLMNOPQRSTUVWXYZabcdefghijklmnopqrstuvwxyz0123456789-_")

/-- One alphabet character of a 6-bit group. -/
def b64Char (n : Nat) : Char := base64Alphabet.getD n 'A'

/-- Go base64.RawURLEncoding.EncodeToString: base64url without padding,
three input bytes to four characters, with a two- or three-character tail
for one or two leftover bytes. -/
def base64RawURLEncode : List Nat → List Char
  | [] => []
  | [b1] => [b64Char (b1 / 4), b64Char (b1 % 4 * 16)]
  | [b1, b2] => [b64Char (b1 / 4), b64Char (b1 % 4 * 16 + b2 / 16), b64Char (b2 % 16 * 4)]
  | b1 :: b2 :: b3 :: rest =>
      b64Char (b1 / 4) :: b64Char (b1 % 4 * 16 + b2 / 16) ::
      b64Char (b2 % 16 * 4 + b3 / 64) :: b64Char (b3 % 64) :: base64RawURLEncode rest

/-- Line 225: fmt.Sprintf composing the S3 object key from the aspect
bucket prefix, the random segment and the extension. -/
def fileKeyFor (bucketPrefix randSegment ext : List Char) : List Char :=
  bucketPrefix ++ str ("/") ++ randSegment ++ str (".") ++ ext

/-- The final path segment of a URL or path: the characters after the last
slash (the whole string when it has no slash). -/
def lastSegment (l : List Char) : List Char :=
  (l.reverse.takeWhile (fun c => c ≠ '/')).reverse

/-- Line 67: the name of the thumbnail file written under the assets root,
videoID dot extension; filepath.Join is modelled as a slash join. -/
def thumbnailFilePath (assetsRoot videoID mediaType : List Char) : List Char :=
  assetsRoot ++ str ("/") ++ videoID ++ str (".") ++ getFileExtension mediaType

/-- Line 80: the thumbnail URL persisted on the video record; note it
interpolates the full media type where the file name used the extension. -/
def thumbnailURL (port videoID mediaType : List Char) : List Char :=
  str ("http://localhost:") ++ port ++ str ("/assets/") ++ videoID ++ str (".") ++ mediaType

/-- The video metadata record, reduced to the fields the upload handler
reads or writes: identity, owner and the locator field (VideoURL). -/
structure Video where
  id : Nat
  userID : Nat
  videoURL : Option (List Char)
  deriving DecidableEq

/-- Outcome of the ffprobe invocation of lines 258-276: the process can
fail, its output can fail to unmarshal, or it parses to a list of stream
descriptors each carrying a width and a height. -/
inductive ProbeOutcome where
  | execFail : ProbeOutcome
  | badJSON : ProbeOutcome
  | streams : List (Int × Int) → ProbeOutcome
  deriving DecidableEq

/-- Lines 258-299: getVideoAspectRatio.  Exec failure and unmarshal failure
return the error; an empty stream list is rejected; otherwise the width and
height of the first stream are classified. -/
def getVideoAspectRatio (o : ProbeOutcome) : Except (List Char) (List Char) :=
  match o with
  | ProbeOutcome.execFail => Except.error (str ("ffprobe exec failed"))
  | ProbeOutcome.badJSON => Except.error (str ("failed to unmarshal ffprobe output"))
  | ProbeOutcome.streams [] => Except.error (str ("no video streams found"))
  | ProbeOutcome.streams ((w, h) :: _) => Except.ok (classifyRatio w h)

/-- Lines 312-322: processVideoForFastStart appends the fixed suffix to the
input path and runs ffmpeg into that path.  The external tool owns the
output file: it can create (possibly partial) output whether or not it
exits zero, so creation and exit status are independent oracle bits.
Returns the output path on success, the error otherwise. -/
def fastStartPath (filePath : List Char) : List Char :=
  filePath ++ str (".processing")

/-- Everything the upload handler touches outside its own stack: temporary
files present on the filesystem, open file handles (tagged 0 for the
multipart file f, 1 for the temp file tf, 2 for processedVideo), objects
put to S3 as (bucket, key, contentType), UpdateVideo calls, paths handed
to ffprobe, and the number of bytes fully staged into the temp file. -/
structure Effects where
  fsFiles : List (List Char)
  openHandles : List Nat
  s3Puts : List (List Char × List Char × List Char)
  dbWrites : List Video
  probedPaths : List (List Char)
  stagedBytes : Option Nat
  deriving DecidableEq

/-- The effect state at handler entry. -/
def emptyEffects : Effects := ⟨[], [], [], [], [], none⟩

/-- os.Create or os.CreateTemp of a path. -/
def createF (p : List Char) (e : Effects) : Effects :=
  { e with fsFiles := e.fsFiles ++ [p] }

/-- os.Remove of a path (a deferred cleanup). -/
def removeF (p : List Char) (e : Effects) : Effects :=
  { e with fsFiles := e.fsFiles.erase p }

/-- Opening a handle. -/
def openH (h : Nat) (e : Effects) : Effects :=
  { e with openHandles := e.openHandles ++ [h] }

/-- Closing a handle (a deferred cleanup). -/
def closeH (h : Nat) (e : Effects) : Effects :=
  { e with openHandles := e.openHandles.erase h }

/-- net/http MaxBytesReader, modelled by its observable contract: a reader
that yields the body when it fits under the limit and an error otherwise. -/
def maxBytesReader (limit n : Nat) : Except Unit Nat :=
  if n ≤ limit then Except.ok n else Except.error ()

/-- Line 313-319 as seen by the caller, over the effect state. -/
def processVideoForFastStart (exitOk writesOutput : Bool) (filePath : List Char)
    (e : Effects) : Except Unit (List Char) × Effects :=
  let out := fastStartPath filePath
  let e2 := if writesOutput then createF out e else e
  if exitOk then (Except.ok out, e2) else (Except.error (), e2)

/-- Lines 324-336: the presigner, modelled as a deterministic URL builder
behind a success oracle. -/
def generatePresignedURL (ok : Bool) (bucket key : List Char) : Except Unit (List Char) :=
  if ok then Except.ok (str ("https://sign.example/") ++ bucket ++ str ("/") ++ key)
  else Except.error ()

/-- Lines 338-355: dbVideoToSignedVideo takes the record by value, decodes
the stored locator, presigns it, and returns a copy of the record whose
VideoURL is the presigned URL. -/
def dbVideoToSignedVideo (presignOk : Bool) (video : Video) : Except (List Char) Video :=
  match video.videoURL with
  | none => Except.error (str ("nil videoURL"))
  | some dbUrl =>
    match decodeLocator dbUrl with
    | Except.error e => Except.error e
    | Except.ok (bucket, key) =>
      match generatePresignedURL presignOk bucket key with
      | Except.error _ => Except.error (str ("presign failed"))
      | Except.ok presignUrl => Except.ok { video with videoURL := some presignUrl }

/-- Oracle outcomes for every call the upload handler makes to a
collaborator, one field per call site, in source order. -/
structure UploadVideoEnv where
  parseIDOk : Bool
  getVideo : Option Video
  bearerTokenOk : Bool
  validateJWT : Option Nat
  bodySize : Nat
  formFileOk : Bool
  parseMediaType : Option (List Char)
  createTempOk : Bool
  tempName : List Char
  copyOk : Bool
  seekOk : Bool
  remuxExitOk : Bool
  remuxWritesOutput : Bool
  openProcessedOk : Bool
  randReadOk : Bool
  randBytes : List Nat
  probe : ProbeOutcome
  putObjectOk : Bool
  updateVideoOk : Bool
  presignOk : Bool
  s3Bucket : List Char

/-- The handler response: an error status code, or 200 with a record. -/
inductive UploadResp where
  | errResp : Nat → UploadResp
  | okResp : Video → UploadResp
  deriving DecidableEq

/-- Lines 114-256: handlerUploadVideo.  Each early return carries the
cleanups of the defers registered so far, innermost (latest registered)
first, exactly as Go runs them: f.Close (line 156), os.Remove(tf.Name())
(178), tf.Close (179), os.Remove(fastStartVideoFilePath) (199, registered
only when the remux succeeded), processedVideo.Close (206). -/
def handlerUploadVideo (env : UploadVideoEnv) : UploadResp × Effects :=
  -- lines 116-121: uuid.Parse
  if env.parseIDOk = false then (UploadResp.errResp 400, emptyEffects) else
  -- lines 124-128: cfg.db.GetVideo
  match env.getVideo with
  | none => (UploadResp.errResp 404, emptyEffects)
  | some video =>
  -- lines 131-135: auth.GetBearerToken
  if env.bearerTokenOk = false then (UploadResp.errResp 401, emptyEffects) else
  -- lines 136-140: auth.ValidateJWT
  match env.validateJWT with
  | none => (UploadResp.errResp 401, emptyEffects)
  | some userID =>
  -- lines 143-146: ownership check
  if video.userID ≠ userID then (UploadResp.errResp 401, emptyEffects) else
  -- lines 149-150: the MaxBytesReader result is assigned to the blank
  -- identifier in the source, so the limited reader is never installed
  let _ := maxBytesReader (10 * 2 ^ 30) env.bodySize
  -- lines 151-156: r.FormFile, then defer f.Close()
  if env.formFileOk = false then (UploadResp.errResp 400, emptyEffects) else
  let e1 := openH 0 emptyEffects
  -- lines 159-164: mime.ParseMediaType
  match env.parseMediaType with
  | none => (UploadResp.errResp 400, closeH 0 e1)
  | some mediatype =>
  -- lines 165-168: only video/mp4 is accepted
  if mediatype ≠ str ("video/mp4") then (UploadResp.errResp 400, closeH 0 e1) else
  -- line 170
  let fileExtension := getFileExtension mediatype
  -- lines 173-179: os.CreateTemp, then defer os.Remove(tf.Name()); defer tf.Close()
  if env.createTempOk = false then (UploadResp.errResp 500, closeH 0 e1) else
  let e2 := openH 1 (createF env.tempName e1)
  -- lines 182-186: io.Copy of the (unlimited) body into tf
  if env.copyOk = false then
    (UploadResp.errResp 500, closeH 0 (removeF env.tempName (closeH 1 e2))) else
  let e3 := { e2 with stagedBytes := some env.bodySize }
  -- lines 187-191: tf.Seek back to the start
  if env.seekOk = false then
    (UploadResp.errResp 500, closeH 0 (removeF env.tempName (closeH 1 e3))) else
  -- lines 194-199: processVideoForFastStart, then defer os.Remove(fastStartVideoFilePath)
  match processVideoForFastStart env.remuxExitOk env.remuxWritesOutput env.tempName e3 with
  | (Except.error _, e4) =>
    (UploadResp.errResp 500, closeH 0 (removeF env.tempName (closeH 1 e4)))
  | (Except.ok fsp, e4) =>
  -- lines 201-206: os.Open of the processed file, then defer processedVideo.Close()
  if env.openProcessedOk = false then
    (UploadResp.errResp 500, closeH 0 (removeF env.tempName (closeH 1 (removeF fsp e4)))) else
  let e5 := openH 2 e4
  -- lines 209-214: crypto/rand Read into a 32-byte buffer
  if env.randReadOk = false then
    (UploadResp.errResp 500,
     closeH 0 (removeF env.tempName (closeH 1 (removeF fsp (closeH 2 e5))))) else
  -- lines 215-216: base64.RawURLEncoding
  let base64Rand := base64RawURLEncode env.randBytes
  -- lines 218-222: getVideoAspectRatio on tf.Name(), the original staged file
  let e6 := { e5 with probedPaths := e5.probedPaths ++ [env.tempName] }
  match getVideoAspectRatio env.probe with
  | Except.error _ =>
    (UploadResp.errResp 500,
     closeH 0 (removeF env.tempName (closeH 1 (removeF fsp (closeH 2 e6)))))
  | Except.ok aspectRatio =>
  -- line 223
  let prefixAspectRatio := getAspectRatioPrefix aspectRatio
  -- line 225
  let fileKey := fileKeyFor prefixAspectRatio base64Rand fileExtension
  -- lines 226-236: s3Client.PutObject
  if env.putObjectOk = false then
    (UploadResp.errResp 500,
     closeH 0 (removeF env.tempName (closeH 1 (removeF fsp (closeH 2 e6))))) else
  let e7 := { e6 with s3Puts := e6.s3Puts ++ [(env.s3Bucket, fileKey, mediatype)] }
  -- lines 240-246: locator string, record mutation, cfg.db.UpdateVideo
  let videoURL := encodeLocator env.s3Bucket fileKey
  let video2 : Video := { video with videoURL := some videoURL }
  if env.updateVideoOk = false then
    (UploadResp.errResp 500,
     closeH 0 (removeF env.tempName (closeH 1 (removeF fsp (closeH 2 e7))))) else
  let e8 := { e7 with dbWrites := e7.dbWrites ++ [video2] }
  -- lines 248-252: dbVideoToSignedVideo on the (by-value) updated record
  match dbVideoToSignedVideo env.presignOk video2 with
  | Except.error _ =>
    (UploadResp.errResp 500,
     closeH 0 (removeF env.tempName (closeH 1 (removeF fsp (closeH 2 e8)))))
  | Except.ok videoWithSignUrl =>
  -- line 255
  (UploadResp.okResp videoWithSignUrl,
   closeH 0 (removeF env.tempName (closeH 1 (removeF fsp (closeH 2 e8)))))

/-- A record owned by principal 42, locator not yet set. -/
def baseVideo : Video := ⟨1, 42, none⟩

/-- An environment in which every collaborator call succeeds: a valid
1 KiB video/mp4 upload by the owner, probed at 1920x1080. -/
def baseEnv : UploadVideoEnv where
  parseIDOk := true
  getVideo := some baseVideo
  bearerTokenOk := true
  validateJWT := some 42
  bodySize := 1024
  formFileOk := true
  parseMediaType := some (str ("video/mp4"))
  createTempOk := true
  tempName := str ("/tmp/tubely-upload.mp4")
  copyOk := true
  seekOk := true
  remuxExitOk := true
  remuxWritesOutput := true
  openProcessedOk := true
  randReadOk := true
  randBytes := List.replicate 32 0
  probe := ProbeOutcome.streams [(1920, 1080)]
  putObjectOk := true
  updateVideoOk := true
  presignOk := true
  s3Bucket := str ("tubely")

/-- The storage key produced in baseEnv: all-zero random bytes encode to
43 letters A. -/
def baseKey : List Char := str ("landscape/AAAAAAAAAAAAAAAAAAAAAAAAAAAAAAAAAAAAAAAAAAA.mp4")

/-- An upload whose body is one byte over the 10 GiB cap, everything else
as in baseEnv. -/
def envOversize : UploadVideoEnv := { baseEnv with bodySize := 10 * 2 ^ 30 + 1 }

/-- The baseEnv upload with a failing remux. -/
def envRemuxFail : UploadVideoEnv := { baseEnv with remuxExitOk := false }

/-- The baseEnv upload authenticated as a non-owner (principal 7). -/
def envWrongOwner : UploadVideoEnv := { baseEnv with validateJWT := some 7 }

/-- The baseEnv upload with a remux that writes its output file and then
exits non-zero. -/
def envRemuxLeak : UploadVideoEnv :=
  { baseEnv with remuxExitOk := false, remuxWritesOutput := true }

@[simp] theorem createF_fsFiles (p : List Char) (e : Effects) :
    (createF p e).fsFiles = e.fsFiles ++ [p] := rfl

@[simp] theorem createF_openHandles (p : List Char) (e : Effects) :
    (createF p e).openHandles = e.openHandles := rfl

@[simp] theorem createF_s3Puts (p : List Char) (e : Effects) :
    (createF p e).s3Puts = e.s3Puts := rfl

@[simp] theorem createF_dbWrites (p : List Char) (e : Effects) :
    (createF p e).dbWrites = e.dbWrites := rfl

@[simp] theorem createF_probedPaths (p : List Char) (e : Effects) :
    (createF p e).probedPaths = e.probedPaths := rfl

@[simp] theorem createF_stagedBytes (p : List Char) (e : Effects) :
    (createF p e).stagedBytes = e.stagedBytes := rfl

@[simp] theorem removeF_fsFiles (p : List Char) (e : Effects) :
    (removeF p e).fsFiles = e.fsFiles.erase p := rfl

@[simp] theorem removeF_openHandles (p : List Char) (e : Effects) :
    (removeF p e).openHandles = e.openHandles := rfl

@[simp] theorem removeF_s3Puts (p : List Char) (e : Effects) :
    (removeF p e).s3Puts = e.s3Puts := rfl

@[simp] theorem removeF_dbWrites (p : List Char) (e : Effects) :
    (removeF p e).dbWrites = e.dbWrites := rfl

@[simp] theorem removeF_probedPaths (p : List Char) (e : Effects) :
    (removeF p e).probedPaths = e.probedPaths := rfl

@[simp] theorem removeF_stagedBytes (p : List Char) (e : Effects) :
    (removeF p e).stagedBytes = e.stagedBytes := rfl

@[simp] theorem openH_fsFiles (h : Nat) (e : Effects) :
    (openH h e).fsFiles = e.fsFiles := rfl

@[simp] theorem openH_openHandles (h : Nat) (e : Effects) :
    (openH h e).openHandles = e.openHandles ++ [h] := rfl

@[simp] theorem openH_s3Puts (h : Nat) (e : Effects) :
    (openH h e).s3Puts = e.s3Puts := rfl

@[simp] theorem openH_dbWrites (h : Nat) (e : Effects) :
    (openH h e).dbWrites = e.dbWrites := rfl

@[simp] theorem openH_probedPaths (h : Nat) (e : Effects) :
    (openH h e).probedPaths = e.probedPaths := rfl

@[simp] theorem openH_stagedBytes (h : Nat) (e : Effects) :
    (openH h e).stagedBytes = e.stagedBytes := rfl

@[simp] theorem closeH_fsFiles (h : Nat) (e : Effects) :
    (closeH h e).fsFiles = e.fsFiles := rfl

@[simp] theorem closeH_openHandles (h : Nat) (e : Effects) :
    (closeH h e).openHandles = e.openHandles.erase h := rfl

@[simp] theorem closeH_s3Puts (h : Nat) (e : Effects) :
    (closeH h e).s3Puts = e.s3Puts := rfl

@[simp] theorem closeH_dbWrites (h : Nat) (e : Effects) :
    (closeH h e).dbWrites = e.dbWrites := rfl

@[simp] theorem closeH_probedPaths (h : Nat) (e : Effects) :
    (closeH h e).probedPaths = e.probedPaths := rfl

@[simp] theorem closeH_stagedBytes (h : Nat) (e : Effects) :
    (closeH h e).stagedBytes = e.stagedBytes := rfl

@[simp] theorem iteCreateF_fsFiles (c : Prop) [Decidable c] (p : List Char) (e : Effects) :
    (if c then createF p e else e).fsFiles = e.fsFiles ++ (if c then [p] else []) := by
  split <;> simp

@[simp] theorem iteCreateF_openHandles (c : Prop) [Decidable c] (p : List Char) (e : Effects) :
    (if c then createF p e else e).openHandles = e.openHandles := by
  split <;> rfl

@[simp] theorem iteCreateF_s3Puts (c : Prop) [Decidable c] (p : List Char) (e : Effects) :
    (if c then createF p e else e).s3Puts = e.s3Puts := by
  split <;> rfl

@[simp] theorem iteCreateF_dbWrites (c : Prop) [Decidable c] (p : List Char) (e : Effects) :
    (if c then createF p e else e).dbWrites = e.dbWrites := by
  split <;> rfl

@[simp] theorem iteCreateF_probedPaths (c : Prop) [Decidable c] (p : List Char) (e : Effects) :
    (if c then createF p e else e).probedPaths = e.probedPaths := by
  split <;> rfl

@[simp] theorem iteCreateF_stagedBytes (c : Prop) [Decidable c] (p : List Char) (e : Effects) :
    (if c then createF p e else e).stagedBytes = e.stagedBytes := by
  split <;> rfl

theorem fastStartPath_ne_self (t : List Char) : t ≠ fastStartPath t := by
  intro he
  have hlen := congrArg List.length he
  simp [fastStartPath, str, List.length_append] at hlen

@[simp] theorem fastStartPath_beq_self (t : List Char) :
    (t == fastStartPath t) = false := by
  exact beq_eq_false_iff_ne.mpr (fastStartPath_ne_self t)

@[simp] theorem fastStartPath_beq_self_symm (t : List Char) :
    (fastStartPath t == t) = false := by
  exact beq_eq_false_iff_ne.mpr fun he => fastStartPath_ne_self t he.symm

@[simp] theorem cleanup_pair_erase (tn : List Char) (c : Prop) [Decidable c] :
    ((tn :: (if c then [fastStartPath tn] else [])).erase (fastStartPath tn)).erase tn = [] := by
  split <;> simp [List.erase_cons]

theorem base64_length_aux (n : Nat) : ∀ l : List Nat, l.length = 3 * n + 2 →
    (base64RawURLEncode l).length = 4 * n + 3 := by
  induction n with
  | zero =>
    intro l hl
    match l, hl with
    | [b1, b2], _ => rfl
  | succ n ih =>
    intro l hl
    match l, hl with
    | b1 :: b2 :: b3 :: rest, hl =>
      have hrest : rest.length = 3 * n + 2 := by
        simp [List.length_cons] at hl
        omega
      simp [base64RawURLEncode, ih rest hrest]
      omega

theorem base64_length_32 (l : List Nat) (hl : l.length = 32) :
    (base64RawURLEncode l).length = 43 := by
  have := base64_length_aux 10 l (by omega)
  omega

theorem dbVideoToSignedVideo_ok_shape (ok : Bool) (v sv : Video)
    (h : dbVideoToSignedVideo ok v = Except.ok sv) :
    ∃ b k, sv.videoURL = some (str ("https://sign.example/") ++ b ++ str ("/") ++ k) := by
  unfold dbVideoToSignedVideo generatePresignedURL at h
  split at h
  · exact absurd h (by simp)
  · split at h
    · exact absurd h (by simp)
    · rename_i dbUrl bk bucket key hbk
      split at h
      · exact absurd h (by simp)
      · rename_i presignUrl hsign
        split at hsign
        · refine ⟨bucket, key, ?_⟩
          injection h with h2
          rw [← h2]
          injection hsign with h3
          rw [h3]
        · exact absurd hsign (by simp)

theorem splitSep_ne_nil (sep : Char) (l : List Char) : splitSep sep l ≠ [] := by
  cases l with
  | nil => simp [splitSep]
  | cons c cs =>
    simp only [splitSep]
    split
    · simp
    · split <;> simp

theorem splitSep_of_not_mem (sep : Char) (l : List Char) (h : sep ∉ l) :
    splitSep sep l = [l] := by
  induction l with
  | nil => rfl
  | cons c cs ih =>
    have hc : c ≠ sep := fun e => h (e ▸ List.mem_cons_self c cs)
    have hcs : sep ∉ cs := fun m => h (List.mem_cons_of_mem c m)
    simp only [splitSep, if_neg hc, ih hcs]

theorem splitSep_append_sep (sep : Char) (b k : List Char)
    (hb : sep ∉ b) (hk : sep ∉ k) :
    splitSep sep (b ++ sep :: k) = [b, k] := by
  induction b with
  | nil => simp [splitSep, splitSep_of_not_mem sep k hk]
  | cons a as ih =>
    have ha : a ≠ sep := fun e => hb (e ▸ List.mem_cons_self a as)
    have has : sep ∉ as := fun m => hb (List.mem_cons_of_mem a m)
    simp only [List.cons_append, splitSep, if_neg ha]
    rw [List.append_eq, ih has]

theorem takeWhile_until_sep (m r : List Char) (hm : '/' ∉ m) :
    (m ++ '/' :: r).takeWhile (fun c => c ≠ '/') = m := by
  induction m with
  | nil => simp [List.takeWhile]
  | cons a as ih =>
    have ha : a ≠ '/' := fun e => hm (e ▸ List.mem_cons_self a as)
    have has : '/' ∉ as := fun mm => hm (List.mem_cons_of_mem a mm)
    have hstep := ih has
    simp only [List.cons_append, List.takeWhile_cons]
    simp [ha] at hstep ⊢
    exact hstep

theorem lastSegment_append (x s : List Char) (hs : '/' ∉ s) :
    lastSegment (x ++ '/' :: s) = s := by
  unfold lastSegment
  have hrev : (x ++ '/' :: s).reverse = s.reverse ++ '/' :: x.reverse := by
    simp
  have hm : '/' ∉ s.reverse := by simpa using hs
  rw [hrev, takeWhile_until_sep s.reverse x.reverse hm, List.reverse_reverse]

/-- C1: for every integer width and positive height, the composed
classification (ratio normalization then prefix switch) returns landscape
exactly on ratios within one tenth of 16/9 inclusive, portrait exactly on
ratios within one tenth of 9/16 inclusive, other exactly on the rest, and
always one of the three. -/
theorem aspect_classification_partition (w h : Int) (hh : 0 < h) :
    (getAspectRatioPrefix (classifyRatio w h) = str ("landscape") ↔
      |(w : ℚ) / (h : ℚ) - 16/9| ≤ 1/10) ∧
    (getAspectRatioPrefix (classifyRatio w h) = str ("portrait") ↔
      |(w : ℚ) / (h : ℚ) - 9/16| ≤ 1/10) ∧
    (getAspectRatioPrefix (classifyRatio w h) = str ("other") ↔
      (¬ |(w : ℚ) / (h : ℚ) - 16/9| ≤ 1/10 ∧ ¬ |(w : ℚ) / (h : ℚ) - 9/16| ≤ 1/10)) ∧
    (getAspectRatioPrefix (classifyRatio w h) = str ("landscape") ∨
     getAspectRatioPrefix (classifyRatio w h) = str ("portrait") ∨
     getAspectRatioPrefix (classifyRatio w h) = str ("other")) := by
  have ht : tolerance = 1/10 := rfl
  unfold classifyRatio ratioOf
  set r : ℚ := (w : ℚ) / (h : ℚ) with hr
  split_ifs with hA hB
  · have hab : |r - 16/9| ≤ 1/10 := by
      rw [abs_le]; rw [ht] at hA; exact ⟨by linarith [hA.1], by linarith [hA.2]⟩
    have hnb : ¬ |r - 9/16| ≤ 1/10 := by
      rw [abs_le]; rw [ht] at hA; rintro ⟨c, d⟩; linarith [hA.1]
    refine ⟨iff_of_true (by decide) hab, iff_of_false (by decide) hnb,
      iff_of_false (by decide) (fun hc => hc.1 hab), Or.inl (by decide)⟩
  · have hab : |r - 9/16| ≤ 1/10 := by
      rw [abs_le]; rw [ht] at hB; exact ⟨by linarith [hB.1], by linarith [hB.2]⟩
    have hna : ¬ |r - 16/9| ≤ 1/10 := by
      rw [abs_le]; rw [ht] at hB; rintro ⟨c, d⟩; linarith [hB.2]
    refine ⟨iff_of_false (by decide) hna, iff_of_true (by decide) hab,
      iff_of_false (by decide) (fun hc => hc.2 hab), Or.inr (Or.inl (by decide))⟩
  · have hna : ¬ |r - 16/9| ≤ 1/10 := by
      rw [abs_le]; rw [ht] at hA; rintro ⟨c, d⟩; exact hA ⟨by linarith, by linarith⟩
    have hnb : ¬ |r - 9/16| ≤ 1/10 := by
      rw [abs_le]; rw [ht] at hB; rintro ⟨c, d⟩; exact hB ⟨by linarith, by linarith⟩
    refine ⟨iff_of_false (by decide) hna, iff_of_false (by decide) hnb,
      iff_of_true (by decide) ⟨hna, hnb⟩, Or.inr (Or.inr (by decide))⟩

theorem aspect_classification_partition_check :
    (0 : Int) < 1080 ∧
    ((getAspectRatioPrefix (classifyRatio 1920 1080) = str ("landscape") ↔
      |(1920 : ℚ) / (1080 : ℚ) - 16/9| ≤ 1/10) ∧
    (getAspectRatioPrefix (classifyRatio 1920 1080) = str ("portrait") ↔
      |(1920 : ℚ) / (1080 : ℚ) - 9/16| ≤ 1/10) ∧
    (getAspectRatioPrefix (classifyRatio 1920 1080) = str ("other") ↔
      (¬ |(1920 : ℚ) / (1080 : ℚ) - 16/9| ≤ 1/10 ∧
       ¬ |(1920 : ℚ) / (1080 : ℚ) - 9/16| ≤ 1/10)) ∧
    (getAspectRatioPrefix (classifyRatio 1920 1080) = str ("landscape") ∨
     getAspectRatioPrefix (classifyRatio 1920 1080) = str ("portrait") ∨
     getAspectRatioPrefix (classifyRatio 1920 1080) = str ("other"))) :=
  ⟨by decide, aspect_classification_partition 1920 1080 (by decide)⟩

/-- C2: joining a comma-free bucket and key with a comma and splitting it
back recovers the pair, and decoding any string whose comma-split does not
have exactly two fields returns the error, never a truncated pair. -/
theorem locator_roundtrip_and_malformed :
    (∀ bucket key : List Char, ',' ∉ bucket → ',' ∉ key →
      decodeLocator (encodeLocator bucket key) = Except.ok (bucket, key)) ∧
    (∀ u : List Char, (splitSep ',' u).length ≠ 2 →
      decodeLocator u =
        Except.error (str ("invalid dbVideoUrl, cannot get correct bucket and key"))) := by
  constructor
  · intro b k hb hk
    unfold decodeLocator encodeLocator
    have hform : b ++ str (",") ++ k = b ++ ',' :: k := by simp [str]
    rw [hform, splitSep_append_sep ',' b k hb hk]
  · intro u hu
    unfold decodeLocator
    rcases hsp : splitSep ',' u with _ | ⟨a, _ | ⟨b, _ | ⟨c, rest⟩⟩⟩
    · rfl
    · rfl
    · exact absurd (by rw [hsp]; rfl) hu
    · rfl

theorem locator_roundtrip_and_malformed_check :
    decodeLocator (encodeLocator (str ("tubely")) (str ("landscape/seg.mp4"))) =
      Except.ok (str ("tubely"), str ("landscape/seg.mp4")) ∧
    decodeLocator (str ("a,b,c")) =
      Except.error (str ("invalid dbVideoUrl, cannot get correct bucket and key")) :=
  ⟨locator_roundtrip_and_malformed.1 _ _ (by decide) (by decide),
   locator_roundtrip_and_malformed.2 _ (by decide)⟩

/-- C10: for a two-part media type with slash-free parts, the thumbnail
file is written under a name ending in a dot and the subtype alone, the
persisted URL ends in a dot and the full media type, and the final path
segment of that URL never equals the file name written to disk. -/
theorem thumbnail_url_vs_file_mismatch
    (t s assetsRoot port videoID : List Char) (ht : '/' ∉ t) (hs : '/' ∉ s) :
    getFileExtension (t ++ str ("/") ++ s) = s ∧
    thumbnailFilePath assetsRoot videoID (t ++ str ("/") ++ s) =
      assetsRoot ++ str ("/") ++ videoID ++ str (".") ++ s ∧
    (∃ pre, thumbnailURL port videoID (t ++ str ("/") ++ s) =
      pre ++ str (".") ++ (t ++ str ("/") ++ s)) ∧
    lastSegment (thumbnailURL port videoID (t ++ str ("/") ++ s)) ≠
      videoID ++ str (".") ++ s := by
  have hform : t ++ str ("/") ++ s = t ++ '/' :: s := by simp [str]
  have hext : getFileExtension (t ++ str ("/") ++ s) = s := by
    unfold getFileExtension
    rw [hform, splitSep_append_sep '/' t s ht hs]
  refine ⟨hext, ?_, ?_, ?_⟩
  · unfold thumbnailFilePath
    rw [hext]
  · exact ⟨str ("http://localhost:") ++ port ++ str ("/assets/") ++ videoID, by
      unfold thumbnailURL
      simp [List.append_assoc]⟩
  · have hls : lastSegment (thumbnailURL port videoID (t ++ str ("/") ++ s)) = s := by
      unfold thumbnailURL
      have hshape :
          str ("http://localhost:") ++ port ++ str ("/assets/") ++ videoID ++ str (".") ++
            (t ++ str ("/") ++ s) =
          (str ("http://localhost:") ++ port ++ str ("/assets/") ++ videoID ++ str (".") ++ t)
            ++ '/' :: s := by
        simp [str, List.append_assoc]
      rw [hshape, lastSegment_append _ s hs]
    rw [hls]
    intro he
    have hlen := congrArg List.length he
    simp [str, List.length_append] at hlen
    omega

theorem thumbnail_url_vs_file_mismatch_check :
    getFileExtension (str ("image") ++ str ("/") ++ str ("png")) = str ("png") ∧
    thumbnailFilePath (str ("assets")) (str ("vid1")) (str ("image") ++ str ("/") ++ str ("png")) =
      str ("assets") ++ str ("/") ++ str ("vid1") ++ str (".") ++ str ("png") ∧
    (∃ pre, thumbnailURL (str ("8080")) (str ("vid1")) (str ("image") ++ str ("/") ++ str ("png")) =
      pre ++ str (".") ++ (str ("image") ++ str ("/") ++ str ("png"))) ∧
    lastSegment (thumbnailURL (str ("8080")) (str ("vid1")) (str ("image") ++ str ("/") ++ str ("png"))) ≠
      str ("vid1") ++ str (".") ++ str ("png") :=
  thumbnail_url_vs_file_mismatch (str ("image")) (str ("png")) (str ("assets"))
    (str ("8080")) (str ("vid1")) (by decide) (by decide)

@[simp] theorem getFileExtension_mp4 : getFileExtension (str ("video/mp4")) = str ("mp4") := by
  rfl

theorem handler_invariants (env : UploadVideoEnv) :
    (handlerUploadVideo env).2.openHandles = [] ∧
    ((env.remuxExitOk = true ∨ env.remuxWritesOutput = false) →
      (handlerUploadVideo env).2.fsFiles = []) ∧
    (∀ v, v ∈ (handlerUploadVideo env).2.dbWrites →
      env.putObjectOk = true ∧
      ∃ key, v.videoURL = some (encodeLocator env.s3Bucket key) ∧
        (env.s3Bucket, key, str ("video/mp4")) ∈ (handlerUploadVideo env).2.s3Puts) ∧
    (∀ v, (handlerUploadVideo env).1 = UploadResp.okResp v →
      (∃ b k, v.videoURL = some (str ("https://sign.example/") ++ b ++ str ("/") ++ k)) ∧
      (handlerUploadVideo env).2.dbWrites ≠ []) ∧
    (∀ b key mt, (b, key, mt) ∈ (handlerUploadVideo env).2.s3Puts →
      b = env.s3Bucket ∧ mt = str ("video/mp4") ∧
      ∃ w h rest, env.probe = ProbeOutcome.streams ((w, h) :: rest) ∧
        key = fileKeyFor (getAspectRatioPrefix (classifyRatio w h))
          (base64RawURLEncode env.randBytes) (str ("mp4"))) := by
  obtain ⟨pid, gv, tok, jwt, bs, ffo, pmt, cto, tn, cpo, sko, rxo, rwo, opo, rro, rb, pr,
    poo, uvo, pso, bkt⟩ := env
  cases pid with
  | false => simp [handlerUploadVideo, emptyEffects]
  | true =>
  cases gv with
  | none => simp [handlerUploadVideo, emptyEffects]
  | some video =>
  cases tok with
  | false => simp [handlerUploadVideo, emptyEffects]
  | true =>
  cases jwt with
  | none => simp [handlerUploadVideo, emptyEffects]
  | some u =>
  by_cases hown : video.userID = u
  case neg => simp [handlerUploadVideo, emptyEffects, hown]
  case pos =>
  subst hown
  cases ffo with
  | false => simp [handlerUploadVideo, emptyEffects]
  | true =>
  cases pmt with
  | none => simp [handlerUploadVideo, emptyEffects]
  | some mt =>
  by_cases hmt : mt = str ("video/mp4")
  case neg => simp [handlerUploadVideo, emptyEffects, hmt]
  case pos =>
  subst hmt
  cases cto with
  | false => simp [handlerUploadVideo, emptyEffects]
  | true =>
  cases cpo with
  | false => simp [handlerUploadVideo, emptyEffects, List.erase_cons]
  | true =>
  cases sko with
  | false => simp [handlerUploadVideo, emptyEffects, List.erase_cons]
  | true =>
  cases rxo with
  | false =>
    simp [handlerUploadVideo, emptyEffects, processVideoForFastStart, List.erase_cons]
  | true =>
  cases opo with
  | false =>
    simp [handlerUploadVideo, emptyEffects, processVideoForFastStart, List.erase_cons]
  | true =>
  cases rro with
  | false =>
    simp [handlerUploadVideo, emptyEffects, processVideoForFastStart, List.erase_cons]
  | true =>
  cases pr with
  | execFail =>
    simp [handlerUploadVideo, emptyEffects, processVideoForFastStart, getVideoAspectRatio,
      List.erase_cons]
  | badJSON =>
    simp [handlerUploadVideo, emptyEffects, processVideoForFastStart, getVideoAspectRatio,
      List.erase_cons]
  | streams l =>
  cases l with
  | nil =>
    simp [handlerUploadVideo, emptyEffects, processVideoForFastStart, getVideoAspectRatio,
      List.erase_cons]
  | cons wh rest =>
  obtain ⟨w, hgt⟩ := wh
  cases poo with
  | false =>
    simp [handlerUploadVideo, emptyEffects, processVideoForFastStart, getVideoAspectRatio,
      List.erase_cons]
  | true =>
  cases uvo with
  | false =>
    simp [handlerUploadVideo, emptyEffects, processVideoForFastStart, getVideoAspectRatio,
      List.erase_cons]
    exact fun b key mt hb hk hm => ⟨hb, hm, w, hgt, ⟨rfl, rfl⟩, hk⟩
  | true =>
  simp [handlerUploadVideo, emptyEffects, processVideoForFastStart, getVideoAspectRatio,
    List.erase_cons]
  split
  · simp [List.erase_cons]
    exact fun b key mt hb hk hm => ⟨hb, hm, w, hgt, ⟨rfl, rfl⟩, hk⟩
  · rename_i sv hsv
    simp [List.erase_cons]
    obtain ⟨b, k, hbk⟩ := dbVideoToSignedVideo_ok_shape pso _ sv hsv
    exact ⟨⟨b, k, by simpa [List.append_assoc] using hbk⟩,
      fun b2 key mt hb hk hm => ⟨hb, hm, w, hgt, ⟨rfl, rfl⟩, hk⟩⟩

set_option maxHeartbeats 2000000 in
theorem baseEnv_run :
    handlerUploadVideo baseEnv =
      (UploadResp.okResp ⟨1, 42, some (str ("https://sign.example/tubely/landscape/AAAAAAAAAAAAAAAAAAAAAAAAAAAAAAAAAAAAAAAAAAA.mp4"))⟩,
       ⟨[], [], [(str ("tubely"), baseKey, str ("video/mp4"))],
        [⟨1, 42, some (str ("tubely,landscape/AAAAAAAAAAAAAAAAAAAAAAAAAAAAAAAAAAAAAAAAAAA.mp4"))⟩],
        [str ("/tmp/tubely-upload.mp4")], some 1024⟩) := by
  have hcl : classifyRatio 1920 1080 = str ("16:9") := by
    norm_num [classifyRatio, ratioOf, tolerance]
  have hb64 : base64RawURLEncode (List.replicate 32 (0 : Nat)) = str ("AAAAAAAAAAAAAAAAAAAAAAAAAAAAAAAAAAAAAAAAAAA") := by rfl
  simp [handlerUploadVideo, baseEnv, baseVideo, emptyEffects, processVideoForFastStart,
    getVideoAspectRatio, hcl, hb64, getAspectRatioPrefix, fileKeyFor, getFileExtension,
    dbVideoToSignedVideo, decodeLocator, encodeLocator, generatePresignedURL, splitSep,
    base64RawURLEncode, b64Char, base64Alphabet, List.replicate, List.getD, List.get?,
    List.erase_cons, str, baseKey, fastStartPath]
  decide

theorem envOversize_run :
    handlerUploadVideo envOversize =
      (UploadResp.okResp ⟨1, 42, some (str ("https://sign.example/tubely/landscape/AAAAAAAAAAAAAAAAAAAAAAAAAAAAAAAAAAAAAAAAAAA.mp4"))⟩,
       ⟨[], [], [(str ("tubely"), baseKey, str ("video/mp4"))],
        [⟨1, 42, some (str ("tubely,landscape/AAAAAAAAAAAAAAAAAAAAAAAAAAAAAAAAAAAAAAAAAAA.mp4"))⟩],
        [str ("/tmp/tubely-upload.mp4")], some (10 * 2 ^ 30 + 1)⟩) := by
  have hcl : classifyRatio 1920 1080 = str ("16:9") := by
    norm_num [classifyRatio, ratioOf, tolerance]
  have hb64 : base64RawURLEncode (List.replicate 32 (0 : Nat)) = str ("AAAAAAAAAAAAAAAAAAAAAAAAAAAAAAAAAAAAAAAAAAA") := by rfl
  simp [handlerUploadVideo, envOversize, baseEnv, baseVideo, emptyEffects,
    processVideoForFastStart, getVideoAspectRatio, hcl, hb64, getAspectRatioPrefix,
    fileKeyFor, getFileExtension, dbVideoToSignedVideo, decodeLocator, encodeLocator,
    generatePresignedURL, splitSep, base64RawURLEncode, b64Char, base64Alphabet,
    List.replicate, List.getD, List.get?, List.erase_cons, str, baseKey, fastStartPath]
  decide

/-- C3: the upload size cap is not enforced.  Line 150 assigns the
MaxBytesReader result to the blank identifier, so the limiting reader is
never installed: a request body one byte over the 10 GiB cap (which the
discarded reader itself would reject, first conjunct) is fully staged,
remuxed, uploaded to S3 and recorded, and the handler answers 200. -/
theorem upload_size_cap_discarded :
    maxBytesReader (10 * 2 ^ 30) envOversize.bodySize = Except.error () ∧
    (handlerUploadVideo envOversize).1 =
      UploadResp.okResp ⟨1, 42, some (str ("https://sign.example/tubely/landscape/AAAAAAAAAAAAAAAAAAAAAAAAAAAAAAAAAAAAAAAAAAA.mp4"))⟩ ∧
    (handlerUploadVideo envOversize).2.stagedBytes = some (10 * 2 ^ 30 + 1) ∧
    (handlerUploadVideo envOversize).2.s3Puts =
      [(str ("tubely"), baseKey, str ("video/mp4"))] ∧
    (handlerUploadVideo envOversize).2.dbWrites =
      [⟨1, 42, some (str ("tubely,landscape/AAAAAAAAAAAAAAAAAAAAAAAAAAAAAAAAAAAAAAAAAAA.mp4"))⟩] := by
  refine ⟨by rfl, ?_, ?_, ?_, ?_⟩ <;> rw [envOversize_run]

/-- C4: whenever the pipeline reaches the remux step and the remux exits
non-zero, the handler answers 500, nothing is ever put to S3, and
UpdateVideo is never called, so the record's locator is unchanged. -/
theorem remux_failure_is_atomic (env : UploadVideoEnv) (video : Video) (u : Nat)
    (h1 : env.parseIDOk = true) (h2 : env.getVideo = some video)
    (h3 : env.bearerTokenOk = true) (h4 : env.validateJWT = some u)
    (h5 : video.userID = u) (h6 : env.formFileOk = true)
    (h7 : env.parseMediaType = some (str ("video/mp4")))
    (h8 : env.createTempOk = true) (h9 : env.copyOk = true) (h10 : env.seekOk = true)
    (h11 : env.remuxExitOk = false) :
    (handlerUploadVideo env).1 = UploadResp.errResp 500 ∧
    (handlerUploadVideo env).2.s3Puts = [] ∧
    (handlerUploadVideo env).2.dbWrites = [] := by
  simp [handlerUploadVideo, h1, h2, h3, h4, h5, h6, h7, h8, h9, h10, h11,
    emptyEffects, processVideoForFastStart]

theorem remux_failure_is_atomic_check :
    (handlerUploadVideo envRemuxFail).1 = UploadResp.errResp 500 ∧
    (handlerUploadVideo envRemuxFail).2.s3Puts = [] ∧
    (handlerUploadVideo envRemuxFail).2.dbWrites = [] :=
  remux_failure_is_atomic envRemuxFail baseVideo 42
    rfl rfl rfl rfl rfl rfl rfl rfl rfl rfl rfl

/-- C5: every UpdateVideo call of the upload handler stores the comma
locator of a key that has been put to S3 in the same run (so the locator is
written only after the durable upload succeeded and never holds a signed
URL), and a 200 response carries the presigned URL, produced from a copy of
the record while the stored write keeps the locator. -/
theorem locator_persisted_only_after_upload (env : UploadVideoEnv) :
    (∀ v, v ∈ (handlerUploadVideo env).2.dbWrites →
      env.putObjectOk = true ∧
      ∃ key, v.videoURL = some (encodeLocator env.s3Bucket key) ∧
        (env.s3Bucket, key, str ("video/mp4")) ∈ (handlerUploadVideo env).2.s3Puts) ∧
    (∀ v, (handlerUploadVideo env).1 = UploadResp.okResp v →
      (∃ b k, v.videoURL = some (str ("https://sign.example/") ++ b ++ str ("/") ++ k)) ∧
      (handlerUploadVideo env).2.dbWrites ≠ []) :=
  ⟨(handler_invariants env).2.2.1, (handler_invariants env).2.2.2.1⟩

theorem locator_persisted_only_after_upload_check :
    (baseEnv.putObjectOk = true ∧
      ∃ key, (Video.mk 1 42 (some (str ("tubely,landscape/AAAAAAAAAAAAAAAAAAAAAAAAAAAAAAAAAAAAAAAAAAA.mp4")))).videoURL =
          some (encodeLocator baseEnv.s3Bucket key) ∧
        (baseEnv.s3Bucket, key, str ("video/mp4")) ∈ (handlerUploadVideo baseEnv).2.s3Puts) ∧
    ((∃ b k, (Video.mk 1 42 (some (str ("https://sign.example/tubely/landscape/AAAAAAAAAAAAAAAAAAAAAAAAAAAAAAAAAAAAAAAAAAA.mp4")))).videoURL =
        some (str ("https://sign.example/") ++ b ++ str ("/") ++ k)) ∧
      (handlerUploadVideo baseEnv).2.dbWrites ≠ []) :=
  ⟨(locator_persisted_only_after_upload baseEnv).1 _ (by simp [baseEnv_run]),
   (locator_persisted_only_after_upload baseEnv).2 _ (by rw [baseEnv_run])⟩

/-- C6: an upload to a record owned by someone else answers 401 with no
effect at all: no temp file, no open handle, no S3 put, no record write,
no probe, nothing staged. -/
theorem ownership_mismatch_no_side_effects (env : UploadVideoEnv) (video : Video) (u : Nat)
    (h1 : env.parseIDOk = true) (h2 : env.getVideo = some video)
    (h3 : env.bearerTokenOk = true) (h4 : env.validateJWT = some u)
    (h5 : video.userID ≠ u) :
    handlerUploadVideo env = (UploadResp.errResp 401, emptyEffects) := by
  simp [handlerUploadVideo, h1, h2, h3, h4, h5]

theorem ownership_mismatch_no_side_effects_check :
    handlerUploadVideo envWrongOwner = (UploadResp.errResp 401, emptyEffects) :=
  ownership_mismatch_no_side_effects envWrongOwner baseVideo 7 rfl rfl rfl rfl (by decide)

/-- C7: the prober errors exactly on exec failure, unparsable output, or an
empty stream list; on any nonempty stream list it classifies the first
stream's width and height, whatever follows; and the pipeline probes the
original staged file, whose path differs from the optimized copy's. -/
theorem geometry_prober_contract :
    (∀ o : ProbeOutcome, (∃ e, getVideoAspectRatio o = Except.error e) ↔
      (o = ProbeOutcome.execFail ∨ o = ProbeOutcome.badJSON ∨
       o = ProbeOutcome.streams [])) ∧
    (∀ (w h : Int) (rest : List (Int × Int)),
      getVideoAspectRatio (ProbeOutcome.streams ((w, h) :: rest)) =
        Except.ok (classifyRatio w h)) ∧
    (∀ (env : UploadVideoEnv) (video : Video) (u : Nat),
      env.parseIDOk = true → env.getVideo = some video → env.bearerTokenOk = true →
      env.validateJWT = some u → video.userID = u → env.formFileOk = true →
      env.parseMediaType = some (str ("video/mp4")) → env.createTempOk = true →
      env.copyOk = true → env.seekOk = true → env.remuxExitOk = true →
      env.openProcessedOk = true → env.randReadOk = true →
      (handlerUploadVideo env).2.probedPaths = [env.tempName] ∧
      env.tempName ≠ fastStartPath env.tempName) := by
  refine ⟨?_, ?_, ?_⟩
  · intro o
    cases o with
    | execFail => simp [getVideoAspectRatio]
    | badJSON => simp [getVideoAspectRatio]
    | streams l =>
      cases l with
      | nil => simp [getVideoAspectRatio]
      | cons wh rest =>
        obtain ⟨w, hgt⟩ := wh
        simp [getVideoAspectRatio]
  · intro w hgt rest
    simp [getVideoAspectRatio]
  · intro env video u h1 h2 h3 h4 h5 h6 h7 h8 h9 h10 h11 h12 h13
    refine ⟨?_, fastStartPath_ne_self _⟩
    simp [handlerUploadVideo, h1, h2, h3, h4, h5, h6, h7, h8, h9, h10, h11, h12, h13,
      emptyEffects, processVideoForFastStart]
    cases hpr : env.probe with
    | execFail => simp [getVideoAspectRatio]
    | badJSON => simp [getVideoAspectRatio]
    | streams l =>
      cases l with
      | nil => simp [getVideoAspectRatio]
      | cons wh rest =>
        obtain ⟨w, hgt⟩ := wh
        simp only [getVideoAspectRatio]
        by_cases hpoo : env.putObjectOk = false
        · simp [hpoo]
        · by_cases huvo : env.updateVideoOk = false
          · simp [hpoo, huvo]
          · simp [hpoo, huvo]
            split <;> simp

theorem geometry_prober_contract_check :
    (∃ e, getVideoAspectRatio ProbeOutcome.execFail = Except.error e) ∧
    getVideoAspectRatio (ProbeOutcome.streams [(1920, 1080)]) =
      Except.ok (classifyRatio 1920 1080) ∧
    (handlerUploadVideo baseEnv).2.probedPaths = [baseEnv.tempName] ∧
    baseEnv.tempName ≠ fastStartPath baseEnv.tempName :=
  ⟨(geometry_prober_contract.1 ProbeOutcome.execFail).2 (Or.inl rfl),
   geometry_prober_contract.2.1 1920 1080 [],
   geometry_prober_contract.2.2 baseEnv baseVideo 42
     rfl rfl rfl rfl rfl rfl rfl rfl rfl rfl rfl rfl rfl⟩

/-- C8 counterexample: a remux that creates (partial) output and fails
leaves that output file on the filesystem, because the deferred remove of
the optimized copy is registered only after a successful remux. -/
theorem cleanup_leak_on_remux_failure :
    (handlerUploadVideo envRemuxLeak).1 = UploadResp.errResp 500 ∧
    (handlerUploadVideo envRemuxLeak).2.fsFiles =
      [str ("/tmp/tubely-upload.mp4.processing")] := by
  decide

/-- C8 amended: on every exit path all handles are closed and all temporary
files are removed, except that the optimized copy survives when the remux
step exits non-zero after creating its output file. -/
theorem cleanup_except_failed_remux_output (env : UploadVideoEnv)
    (h : env.remuxExitOk = true ∨ env.remuxWritesOutput = false) :
    (handlerUploadVideo env).2.fsFiles = [] ∧
    (handlerUploadVideo env).2.openHandles = [] :=
  ⟨(handler_invariants env).2.1 h, (handler_invariants env).1⟩

theorem cleanup_except_failed_remux_output_check :
    (handlerUploadVideo baseEnv).2.fsFiles = [] ∧
    (handlerUploadVideo baseEnv).2.openHandles = [] :=
  cleanup_except_failed_remux_output baseEnv (Or.inl rfl)

/-- C9: every object the handler puts to S3 goes to the configured bucket
with content type video/mp4 under the key
bucket-prefix slash random-segment dot mp4, where the prefix is the aspect
bucket of the probed first stream and the segment is the unpadded base64url
encoding of the random bytes; 32 random bytes encode to 43 characters, the
unpadded length. -/
theorem storage_key_structure (env : UploadVideoEnv) :
    (∀ b key mt, (b, key, mt) ∈ (handlerUploadVideo env).2.s3Puts →
      b = env.s3Bucket ∧ mt = str ("video/mp4") ∧
      ∃ w h rest, env.probe = ProbeOutcome.streams ((w, h) :: rest) ∧
        key = fileKeyFor (getAspectRatioPrefix (classifyRatio w h))
          (base64RawURLEncode env.randBytes) (str ("mp4"))) ∧
    (env.randBytes.length = 32 → (base64RawURLEncode env.randBytes).length = 43) :=
  ⟨(handler_invariants env).2.2.2.2, fun hl => base64_length_32 _ hl⟩

theorem storage_key_structure_check :
    (str ("tubely") = baseEnv.s3Bucket ∧ str ("video/mp4") = str ("video/mp4") ∧
      ∃ w h rest, baseEnv.probe = ProbeOutcome.streams ((w, h) :: rest) ∧
        baseKey = fileKeyFor (getAspectRatioPrefix (classifyRatio w h))
          (base64RawURLEncode baseEnv.randBytes) (str ("mp4"))) ∧
    (base64RawURLEncode baseEnv.randBytes).length = 43 :=
  ⟨(storage_key_structure baseEnv).1 (str ("tubely")) baseKey (str ("video/mp4"))
      (by simp [baseEnv_run]),
   (storage_key_structure baseEnv).2 (by decide)⟩
